import Mathlib

/-!
Verification of the forensic signal fusion and consistency engine of the
AI document fraud detection backend.  Python floats are modelled as exact
rationals; library calls (PIL, numpy) are modelled by their mathematical
definitions.
-/

/-- Python's built-in `round` to an integer: round half to even
(banker's rounding), modelled exactly on rationals. -/
def roundHalfEven (q : ℚ) : ℤ :=
  if q - (⌊q⌋ : ℚ) < 1/2 then ⌊q⌋
  else if 1/2 < q - (⌊q⌋ : ℚ) then ⌊q⌋ + 1
  else if ⌊q⌋ % 2 = 0 then ⌊q⌋ else ⌊q⌋ + 1

/-- Python's `round(x, 2)`: round to two decimal places, half to even. -/
def pyRound2 (q : ℚ) : ℚ := (roundHalfEven (q * 100) : ℚ) / 100

/-- The banker's rounding of `q` is at least any integer below `q`. -/
theorem le_roundHalfEven (q : ℚ) (n : ℤ) (h : (n : ℚ) ≤ q) : n ≤ roundHalfEven q := by
  unfold roundHalfEven
  have hf : n ≤ ⌊q⌋ := Int.le_floor.mpr h
  split_ifs <;> omega

/-- The banker's rounding of `q` is at most any integer above `q`. -/
theorem roundHalfEven_le (q : ℚ) (n : ℤ) (h : q ≤ (n : ℚ)) : roundHalfEven q ≤ n := by
  unfold roundHalfEven
  have hf : ⌊q⌋ ≤ n := by
    have h2 := Int.floor_le_floor h
    simpa using h2
  have hq : (⌊q⌋ : ℚ) ≤ q := Int.floor_le q
  split_ifs with h1 h2 h3
  · exact hf
  · have h4 : (⌊q⌋ : ℚ) < (n : ℚ) := by linarith
    have h5 : ⌊q⌋ < n := by exact_mod_cast h4
    omega
  · exact hf
  · have h4 : (⌊q⌋ : ℚ) < (n : ℚ) := by
      have hr : q - (⌊q⌋ : ℚ) = 1/2 := by linarith
      linarith
    have h5 : ⌊q⌋ < n := by exact_mod_cast h4
    omega

/-- Embedding of `calculate_final_score` from
`backend/services/scoring_engine.py`.  The function takes exactly the two
parameters `ela_score` and `layout_score`; the weights are the hard-coded
constants `W_ELA = 0.6` and `W_LAYOUT = 0.4`.  The classification is
decided on the unrounded percentage, the returned score is rounded to two
decimal places. -/
def calculate_final_score (ela_score layout_score : ℚ) : ℚ × String :=
  let W_ELA : ℚ := 6/10
  let W_LAYOUT : ℚ := 4/10
  let final_score := ela_score * W_ELA + layout_score * W_LAYOUT
  let final_score_pct := final_score * 100
  let classification :=
    if final_score_pct > 70 then "Highly Forged"
    else if final_score_pct > 30 then "Suspicious"
    else "Authentic"
  (pyRound2 final_score_pct, classification)

/-- Python calling convention for `calculate_final_score`: the `def` in
`scoring_engine.py` has exactly two positional parameters and no
defaults, so a call with any other number of arguments raises
`TypeError` before the body runs.  `none` models the raised
`TypeError`. -/
def calculate_final_score_call (args : List ℚ) : Option (ℚ × String) :=
  match args with
  | [ela_score, layout_score] => some (calculate_final_score ela_score layout_score)
  | _ => none

/-- C1: for all finite inputs, `calculate_final_score ela layout` returns the
pair of `round((ela*0.6 + layout*0.4)*100, 2)` and the label determined by
the percentage: `> 70` gives Highly Forged, `> 30` and `≤ 70` gives
Suspicious, `≤ 30` gives Authentic. -/
theorem c1_two_signal_fusion (ela layout : ℚ) :
    (calculate_final_score ela layout).1
      = pyRound2 ((ela * (6/10) + layout * (4/10)) * 100)
    ∧ ((ela * (6/10) + layout * (4/10)) * 100 > 70 →
        (calculate_final_score ela layout).2 = "Highly Forged")
    ∧ ((ela * (6/10) + layout * (4/10)) * 100 > 30
        ∧ (ela * (6/10) + layout * (4/10)) * 100 ≤ 70 →
        (calculate_final_score ela layout).2 = "Suspicious")
    ∧ ((ela * (6/10) + layout * (4/10)) * 100 ≤ 30 →
        (calculate_final_score ela layout).2 = "Authentic") := by
  refine ⟨rfl, ?_, ?_, ?_⟩
  · intro h
    simp only [calculate_final_score]
    rw [if_pos h]
  · rintro ⟨h30, h70⟩
    simp only [calculate_final_score]
    rw [if_neg (by linarith), if_pos h30]
  · intro h
    simp only [calculate_final_score]
    rw [if_neg (by linarith), if_neg (by linarith)]

/-- Witness for C1 at concrete inputs covering all three labels. -/
theorem c1_two_signal_fusion_witness :
    (calculate_final_score 1 1).2 = "Highly Forged"
    ∧ (calculate_final_score (1/2) (1/2)).2 = "Suspicious"
    ∧ (calculate_final_score 0 0).2 = "Authentic" :=
  ⟨(c1_two_signal_fusion 1 1).2.1 (by norm_num),
   (c1_two_signal_fusion (1/2) (1/2)).2.2.1 (by norm_num),
   (c1_two_signal_fusion 0 0).2.2.2 (by norm_num)⟩

/-- C2: every call of `calculate_final_score` with three arguments, as the
analysis pipeline in `main.py` performs it
(`calculate_final_score(ela_score, layout_score, dl_score)`), raises a
`TypeError`: the function is defined with exactly two parameters, so no
three-signal fusion result is ever produced. -/
theorem c2_three_argument_call_raises (ela layout dl : ℚ) :
    calculate_final_score_call [ela, layout, dl] = none := rfl

/-- C3 counterexample: at `ela = 2, layout = 0` the returned final
percentage is `120.0`, outside `[0, 100]`. -/
theorem c3_counterexample :
    (calculate_final_score 2 0).1 = 120
    ∧ ¬ ((calculate_final_score 2 0).1 ≤ 100) := by
  have h : (calculate_final_score 2 0).1 = 120 := by
    show pyRound2 ((2 * (6/10) + 0 * (4/10)) * 100) = 120
    norm_num [pyRound2, roundHalfEven]
  exact ⟨h, by rw [h]; norm_num⟩

/-- C3 amended: when both input scores lie in `[0, 1]`, the returned final
percentage lies in `[0, 100]`; the function applies no clamping, so
out-of-range inputs produce out-of-range percentages. -/
theorem c3_amended_bounds (ela layout : ℚ)
    (he0 : 0 ≤ ela) (he1 : ela ≤ 1) (hl0 : 0 ≤ layout) (hl1 : layout ≤ 1) :
    0 ≤ (calculate_final_score ela layout).1
    ∧ (calculate_final_score ela layout).1 ≤ 100 := by
  have hpct0 : (0 : ℚ) ≤ (ela * (6/10) + layout * (4/10)) * 100 := by nlinarith
  have hpct100 : (ela * (6/10) + layout * (4/10)) * 100 ≤ 100 := by nlinarith
  have h1 : (calculate_final_score ela layout).1
      = pyRound2 ((ela * (6/10) + layout * (4/10)) * 100) := rfl
  rw [h1]
  unfold pyRound2
  set x : ℚ := (ela * (6/10) + layout * (4/10)) * 100 with hx
  have hlo : (0 : ℤ) ≤ roundHalfEven (x * 100) :=
    le_roundHalfEven _ 0 (by push_cast; nlinarith)
  have hhi : roundHalfEven (x * 100) ≤ 10000 :=
    roundHalfEven_le _ 10000 (by push_cast; nlinarith)
  constructor
  · apply div_nonneg _ (by norm_num)
    exact_mod_cast hlo
  · rw [div_le_iff₀ (by norm_num : (0:ℚ) < 100)]
    calc ((roundHalfEven (x * 100) : ℤ) : ℚ) ≤ 10000 := by exact_mod_cast hhi
    _ = 100 * 100 := by norm_num

/-- Witness for C3 amended at `ela = 1/2`, `layout = 1/2`. -/
theorem c3_amended_bounds_witness :
    0 ≤ (calculate_final_score (1/2) (1/2)).1
    ∧ (calculate_final_score (1/2) (1/2)).1 ≤ 100 :=
  c3_amended_bounds (1/2) (1/2) (by norm_num) (by norm_num) (by norm_num) (by norm_num)

/-- C4 counterexample: at `ela = 7501/15000, layout = 0` the unrounded
percentage is `30.004`, so the classification is Suspicious, yet the
returned rounded score is exactly `30.0`; likewise `ela = 17501/15000`
returns exactly `70.0` with Highly Forged. -/
theorem c4_counterexample :
    ((calculate_final_score (7501/15000) 0).1 = 30
      ∧ (calculate_final_score (7501/15000) 0).2 ≠ "Authentic")
    ∧ ((calculate_final_score (17501/15000) 0).1 = 70
      ∧ (calculate_final_score (17501/15000) 0).2 ≠ "Suspicious") := by
  have hs : (calculate_final_score (7501/15000) 0).2 = "Suspicious" := by
    simp only [calculate_final_score]
    rw [if_neg (by norm_num), if_pos (by norm_num)]
  have hh : (calculate_final_score (17501/15000) 0).2 = "Highly Forged" := by
    simp only [calculate_final_score]
    rw [if_pos (by norm_num)]
  refine ⟨⟨?_, ?_⟩, ⟨?_, ?_⟩⟩
  · show pyRound2 ((7501/15000 * (6/10) + 0 * (4/10)) * 100) = 30
    norm_num [pyRound2, roundHalfEven]
  · rw [hs]; decide
  · show pyRound2 ((17501/15000 * (6/10) + 0 * (4/10)) * 100) = 70
    norm_num [pyRound2, roundHalfEven]
  · rw [hh]; decide

/-- C4 amended: the classification thresholds hold of the unrounded
percentage, not of the rounded score the caller receives: whenever the
unrounded percentage is exactly `30`, the classification is Authentic,
and whenever it is exactly `70`, the classification is Suspicious. -/
theorem c4_amended_thresholds (ela layout : ℚ) :
    ((ela * (6/10) + layout * (4/10)) * 100 = 30 →
      (calculate_final_score ela layout).2 = "Authentic")
    ∧ ((ela * (6/10) + layout * (4/10)) * 100 = 70 →
      (calculate_final_score ela layout).2 = "Suspicious") := by
  constructor
  · intro h
    simp only [calculate_final_score]
    rw [if_neg (by rw [h]; norm_num), if_neg (by rw [h]; norm_num)]
  · intro h
    simp only [calculate_final_score]
    rw [if_neg (by rw [h]; norm_num), if_pos (by rw [h]; norm_num)]

/-- Witness for C4 amended at percentages exactly 30 and exactly 70. -/
theorem c4_amended_thresholds_witness :
    (calculate_final_score (1/2) 0).2 = "Authentic"
    ∧ (calculate_final_score (7/6) 0).2 = "Suspicious" :=
  ⟨(c4_amended_thresholds (1/2) 0).1 (by norm_num),
   (c4_amended_thresholds (7/6) 0).2 (by norm_num)⟩

/-- An OCR token as consumed by the layout analyzer: `res['bounding_box']`
is a list of `(x, y)` points (normally the 4 corners of a quadrilateral). -/
structure OCRToken where
  bounding_box : List (ℚ × ℚ)

/-- Mean of a list of rationals, as `np.mean` computes it on nonempty
input. -/
def meanL (l : List ℚ) : ℚ := l.sum / l.length

/-- Population variance of a list of rationals, as `np.var` computes it on
nonempty input: the mean of the squared deviations from the mean. -/
def varL (l : List ℚ) : ℚ := meanL (l.map fun x => (x - meanL l) ^ 2)

/-- Ascending sort of a list of rationals, as `list.sort()` produces it. -/
def sortQ (l : List ℚ) : List ℚ := List.insertionSort (· ≤ ·) l

/-- Consecutive differences of a list, as `np.diff` computes them. -/
def consecDiffs : List ℚ → List ℚ
  | a :: b :: rest => (b - a) :: consecDiffs (b :: rest)
  | _ => []

/-- Left x coordinate of a token: `res['bounding_box'][0][0]`. -/
def headX (t : OCRToken) : ℚ := (t.bounding_box.headI).1

/-- Vertical center of a token: `np.mean([p[1] for p in res['bounding_box']])`. -/
def yCenter (t : OCRToken) : ℚ := meanL (t.bounding_box.map Prod.snd)

/-- Embedding of `LayoutAnalyzer.analyze_spatial_consistency` from
`backend/services/layout_analyzer.py`, line for line: fewer than 2 tokens
give 0.0; otherwise the jitter contribution over sorted left-x consecutive
differences strictly between 0 and 15 plus the variance contribution over
sorted y-center consecutive differences (when more than one exists), the
sum clipped to `[0, 1]` as by `np.clip`. -/
def analyze_spatial_consistency (ocr_results : List OCRToken) : ℚ :=
  if ocr_results.length < 2 then 0
  else
    let x_coords := sortQ (ocr_results.map headX)
    let diffs := consecDiffs x_coords
    let small := diffs.filter (fun d => decide (0 < d ∧ d < 15))
    let jitter := if small = [] then 0 else meanL small
    let alignPart := min (jitter / 10) (1/2)
    let y_centers := sortQ (ocr_results.map yCenter)
    let y_diffs := consecDiffs y_centers
    let spacingPart := if 1 < y_diffs.length then min (varL y_diffs / 5000) (1/2) else 0
    min (max (alignPart + spacingPart) 0) 1

/-- Specification-side jitter, following the claim's words: the mean of the
consecutive differences of the sorted left-x coordinates that lie strictly
between 0 and 15, or 0 if none qualify. -/
def layoutSpecJitter (tokens : List OCRToken) : ℚ :=
  let qualifying :=
    (consecDiffs (sortQ (tokens.map headX))).filter (fun d => decide (0 < d ∧ d < 15))
  if qualifying = [] then 0 else meanL qualifying

/-- Specification-side layout score, following the claim's words: 0.0 for
fewer than 2 tokens, otherwise `clamp(j + s, 0, 1)` with
`j = min(jitter/10, 0.5)` and `s = min(variance/5000, 0.5)` contributed
only when at least 2 sorted y-center consecutive differences exist. -/
def layoutSpecScore (tokens : List OCRToken) : ℚ :=
  if tokens.length < 2 then 0
  else
    let j := min (layoutSpecJitter tokens / 10) (1/2)
    let ydiffs := consecDiffs (sortQ (tokens.map yCenter))
    let s := if 2 ≤ ydiffs.length then min (varL ydiffs / 5000) (1/2) else 0
    max 0 (min (j + s) 1)

/-- The two orientations of clamping to an interval agree. -/
theorem clamp_flip (x : ℚ) : min (max x 0) 1 = max 0 (min x 1) := by
  rcases le_total x 0 with h | h
  · rw [max_eq_right h, min_eq_left (by norm_num : (0:ℚ) ≤ 1),
      min_eq_left (by linarith : x ≤ 1), max_eq_left h]
  · rcases le_total x 1 with h1 | h1
    · rw [max_eq_left h, min_eq_left h1, max_eq_right h]
    · rw [max_eq_left h, min_eq_right h1, max_eq_right (by norm_num : (0:ℚ) ≤ 1)]

/-- C5: the layout analyzer returns 0.0 for fewer than 2 tokens and
otherwise exactly the clamped sum of the jitter and spacing contributions
described by the specification. -/
theorem c5_layout_score_formula (tokens : List OCRToken) :
    analyze_spatial_consistency tokens = layoutSpecScore tokens := by
  unfold analyze_spatial_consistency layoutSpecScore layoutSpecJitter
  by_cases h : tokens.length < 2
  · rw [if_pos h, if_pos h]
  · rw [if_neg h, if_neg h]
    exact clamp_flip _

/-- Sorting is invariant under permutation of the input list. -/
theorem sortQ_perm_eq {l l' : List ℚ} (h : l.Perm l') : sortQ l = sortQ l' :=
  List.eq_of_perm_of_sorted
    ((List.perm_insertionSort _ l).trans (h.trans (List.perm_insertionSort _ l').symm))
    (List.sorted_insertionSort _ l) (List.sorted_insertionSort _ l')

/-- C6: the layout analyzer's score is invariant under any reordering of
its input tokens. -/
theorem c6_layout_perm_invariant (ts ts' : List OCRToken) (h : ts.Perm ts') :
    analyze_spatial_consistency ts = analyze_spatial_consistency ts' := by
  unfold analyze_spatial_consistency
  rw [h.length_eq, sortQ_perm_eq (h.map headX), sortQ_perm_eq (h.map yCenter)]

/-- Witness for C6 on a concrete two-token list and its reversal. -/
theorem c6_layout_perm_invariant_witness :
    analyze_spatial_consistency
        [⟨[(0, 0), (10, 0), (10, 5), (0, 5)]⟩, ⟨[(3, 20), (12, 20), (12, 26), (3, 26)]⟩]
      = analyze_spatial_consistency
        [⟨[(3, 20), (12, 20), (12, 26), (3, 26)]⟩, ⟨[(0, 0), (10, 0), (10, 5), (0, 5)]⟩] :=
  c6_layout_perm_invariant _ _ (List.Perm.swap _ _ _)

/-- An RGB pixel of a decoded raster image, each channel in `0..255`. -/
structure RGB where
  r : ℕ
  g : ℕ
  b : ℕ

/-- A decoded raster image: rows of RGB pixels. -/
def Img : Type := List (List RGB)

/-- Per-pixel, per-channel absolute difference of two images, as
`PIL.ImageChops.difference` computes it. -/
def imgDifference (a b : Img) : Img :=
  List.zipWith
    (List.zipWith fun p q =>
      RGB.mk (max p.r q.r - min p.r q.r) (max p.g q.g - min p.g q.g)
        (max p.b q.b - min p.b q.b))
    a b

/-- All channel values of an image in one flat list, as `np.array(image)`
flattens for `np.var`. -/
def imgChannels (im : Img) : List ℕ :=
  ((im.map fun row => (row.map fun p => [p.r, p.g, p.b]).flatten).flatten)

/-- Maximum channel value of an image, as
`max([ex[1] for ex in image.getextrema()])` computes it: the maximum over
the per-channel maxima equals the maximum over all channel values. -/
def imgMaxChannel (im : Img) : ℕ := (imgChannels im).foldr max 0

/-- Embedding of `calculate_ela` from
`backend/services/fraud_detector.py`, with the two external effects
modelled mathematically: the JPEG quality-90 round trip is the separate
`resaved` argument (the re-encoded, decoded copy of the input), and
`PIL.ImageEnhance.Brightness(...).enhance(scale)` is exact multiplication
of every channel by `scale`.  Returns the rescaled difference channels
(the heatmap data) and the anomaly score. -/
def calculate_ela (original resaved : Img) : List ℚ × ℚ :=
  let ela_image := imgDifference original resaved
  let max_diff := imgMaxChannel ela_image
  let max_diff' := if max_diff = 0 then 1 else max_diff
  let scale : ℚ := 255 / (max_diff' : ℚ)
  let rescaled := (imgChannels ela_image).map fun v => (v : ℚ) * scale
  (rescaled, varL rescaled / 100)

/-- C7: the ELA score is the variance of the difference image's channels
rescaled by `255 / max_diff` (with `max_diff` substituted by 1 when it is
zero, so the divisor is always positive), divided by 100. -/
theorem c7_ela_score_formula (original resaved : Img) :
    (0 : ℚ) < (if imgMaxChannel (imgDifference original resaved) = 0 then 1
      else (imgMaxChannel (imgDifference original resaved) : ℚ))
    ∧ (calculate_ela original resaved).2
      = varL ((imgChannels (imgDifference original resaved)).map fun v =>
          (v : ℚ) * (255 / (if imgMaxChannel (imgDifference original resaved) = 0 then 1
            else (imgMaxChannel (imgDifference original resaved) : ℚ)))) / 100 := by
  constructor
  · split_ifs with h
    · norm_num
    · exact_mod_cast Nat.pos_of_ne_zero h
  · show varL ((imgChannels (imgDifference original resaved)).map fun v =>
        (v : ℚ) * (255 / ((if imgMaxChannel (imgDifference original resaved) = 0 then 1
          else imgMaxChannel (imgDifference original resaved) : ℕ) : ℚ))) / 100 = _
    congr 2
    split_ifs <;> norm_num

/-- Exit-path model of the scratch file `temp_ela.jpg` in `calculate_ela`
(`backend/services/fraud_detector.py`).  The body is straight-line code
with no `try`/`finally`; its steps in source order are:
0 `Image.open(image_path).convert`, 1 `original.save(temp_path)` (creates
the scratch file), 2 `Image.open(temp_path)`, 3 `ImageChops.difference`,
4 `getextrema`/max, 5 `Brightness(...).enhance`, 6 `np.array`/`np.var`;
only after step 6 does `os.remove(temp_path)` run.  The argument is the
exit path: `none` for the normal return, `some k` for an exception raised
at step `k`; the result is whether the scratch file still exists when
control returns to the caller. -/
def elaTempExistsAtExit : Option ℕ → Bool
  | none => false
  | some k => decide (2 ≤ k ∧ k ≤ 6)

/-- C8: the scratch file is removed on the normal exit path, but an
exception raised at any step after the scratch file was created (steps 2
through 6, e.g. while reopening or differencing the re-encoded copy)
leaves it on disk, because the cleanup only runs at the end of the
straight-line body. -/
theorem c8_temp_file_leak :
    elaTempExistsAtExit none = false
    ∧ elaTempExistsAtExit (some 2) = true
    ∧ elaTempExistsAtExit (some 6) = true := by
  refine ⟨rfl, ?_, ?_⟩ <;> decide

/-- The KYC validation result returned per batch: in `main.py` its
fallback value is built as
`ValidationResult(consistency_score=0, mismatches=[...], is_valid=False)`. -/
structure ValidationResult where
  consistency_score : ℚ
  mismatches : List String
  is_valid : Bool
deriving DecidableEq

/-- One uploaded file of a batch, abstracted for `analyze_batch` in
`main.py`: its filename, its lowercased filename suffix (the result of
`os.path.splitext(file.filename)[1].lower()`), and the outcome of the
per-document processing pipeline on it — `some` of the extracted entity
set when the `try` body completes, `none` when it raises and the
`except` clause hits `continue`. -/
structure BatchFile (α : Type) where
  filename : String
  fileExt : String
  outcome : Option α

/-- The allowed upload suffixes checked by `analyze_batch`. -/
def allowedExts : List String := [".jpg", ".jpeg", ".png", ".pdf"]

/-- The `extracted_docs_data` list that `analyze_batch` accumulates: one
entity set per file, in submission order, for exactly the files that pass
the suffix check and whose processing succeeds; all other files hit
`continue` and contribute nothing. -/
def batchExtracted {α : Type} (files : List (BatchFile α)) : List α :=
  files.filterMap fun f => if f.fileExt ∈ allowedExts then f.outcome else none

/-- The filenames carried by the `results` list that `analyze_batch`
accumulates: a `FraudResult` is appended exactly when the suffix check
passes and processing succeeds, so skipped and failed files produce no
entry and no error note. -/
def batchResultNames {α : Type} (files : List (BatchFile α)) : List String :=
  files.filterMap fun f =>
    if f.fileExt ∈ allowedExts then f.outcome.map fun _ => f.filename else none

/-- The fallback validation result of `analyze_batch` when fewer than two
documents were successfully processed. -/
def kycFallback : ValidationResult :=
  ValidationResult.mk 0 ["Not enough valid documents"] false

/-- The KYC cross-validation step of `analyze_batch`:
`kyc_validator.validate(extracted_docs_data[0], extracted_docs_data[1])`
when at least two entity sets were extracted, the fallback otherwise.
The validator itself is an external collaborator, passed as `validate`. -/
def batchValidation {α : Type} (validate : α → α → ValidationResult)
    (files : List (BatchFile α)) : ValidationResult :=
  match batchExtracted files with
  | d0 :: d1 :: _ => validate d0 d1
  | _ => kycFallback

/-- Embedding of the `analyze_batch` endpoint of `main.py`: fewer than two
uploaded files raise an HTTP 400 (`none`); otherwise the per-file results
and the batch validation result are returned. -/
def analyze_batch {α : Type} (validate : α → α → ValidationResult)
    (files : List (BatchFile α)) : Option (List String × ValidationResult) :=
  if files.length < 2 then none
  else some (batchResultNames files, batchValidation validate files)

/-- C9: for every batch of at least two submitted files, the validation
result is the pairwise validation of exactly the first two successfully
processed documents in submission order — documents after the first two
never participate — and when fewer than two documents were successfully
processed it is the fallback with consistency score 0, the single
mismatch entry naming not enough valid documents, and invalid. -/
theorem c9_batch_validation_first_two {α : Type}
    (validate : α → α → ValidationResult) (files : List (BatchFile α))
    (h2 : 2 ≤ files.length) :
    (∀ d0 d1 rest, batchExtracted files = d0 :: d1 :: rest →
      analyze_batch validate files = some (batchResultNames files, validate d0 d1))
    ∧ ((batchExtracted files).length < 2 →
      analyze_batch validate files
        = some (batchResultNames files, kycFallback)) := by
  constructor
  · intro d0 d1 rest hx
    unfold analyze_batch batchValidation
    rw [if_neg (by omega), hx]
  · intro hlen
    unfold analyze_batch batchValidation
    rw [if_neg (by omega)]
    match hx : batchExtracted files with
    | [] => rfl
    | [d] => rfl
    | d0 :: d1 :: rest =>
      rw [hx] at hlen
      simp only [List.length] at hlen
      omega

/-- Witness for C9 on a concrete two-file batch whose documents both
process successfully. -/
theorem c9_batch_validation_first_two_witness :
    analyze_batch (fun a b : ℕ => ValidationResult.mk ((a : ℚ) + b) [] true)
      [BatchFile.mk "a.jpg" ".jpg" (some 1), BatchFile.mk "b.png" ".png" (some 2)]
    = some (["a.jpg", "b.png"], ValidationResult.mk 3 [] true) := by
  have h := (c9_batch_validation_first_two
      (fun a b : ℕ => ValidationResult.mk ((a : ℚ) + b) [] true)
      [BatchFile.mk "a.jpg" ".jpg" (some 1), BatchFile.mk "b.png" ".png" (some 2)]
      (by simp)).1 1 2 [] (by rfl)
  rw [h, show batchResultNames
      [BatchFile.mk "a.jpg" ".jpg" ((some 1 : Option ℕ)), BatchFile.mk "b.png" ".png" (some 2)]
    = ["a.jpg", "b.png"] from rfl]
  norm_num

/-- C10: a file whose suffix is not among `.jpg`, `.jpeg`, `.png`, `.pdf`
is silently dropped from a batch: it adds no entry to the results list
and no entity set to the extracted data, wherever it occurs; and a
two-file batch whose second file has a disallowed suffix gets the
fallback validation result rather than a per-file error. -/
theorem c10_disallowed_suffix_skipped {α : Type}
    (validate : α → α → ValidationResult) :
    (∀ (pre post : List (BatchFile α)) (f : BatchFile α),
      f.fileExt ∉ allowedExts →
        batchResultNames (pre ++ f :: post) = batchResultNames (pre ++ post)
        ∧ batchExtracted (pre ++ f :: post) = batchExtracted (pre ++ post))
    ∧ (∀ (g b : BatchFile α), b.fileExt ∉ allowedExts →
        batchValidation validate [g, b] = kycFallback
        ∧ batchResultNames [g, b] = batchResultNames [g]) := by
  constructor
  · intro pre post f hf
    constructor
    · unfold batchResultNames
      rw [List.filterMap_append, List.filterMap_append, List.filterMap_cons,
        if_neg hf]
    · unfold batchExtracted
      rw [List.filterMap_append, List.filterMap_append, List.filterMap_cons,
        if_neg hf]
  · intro g b hb
    constructor
    · unfold batchValidation batchExtracted
      rw [List.filterMap_cons, List.filterMap_cons, List.filterMap_nil, if_neg hb]
      by_cases hg : g.fileExt ∈ allowedExts
      · rw [if_pos hg]
        match g.outcome with
        | none => rfl
        | some d => rfl
      · rw [if_neg hg]
    · unfold batchResultNames
      rw [List.filterMap_cons, List.filterMap_cons, List.filterMap_cons,
        List.filterMap_nil, if_neg hb]

/-- Witness for C10 on a concrete batch with one `.txt` file. -/
theorem c10_disallowed_suffix_skipped_witness :
    batchValidation (fun a b : ℕ => ValidationResult.mk ((a : ℚ) + b) [] true)
      [BatchFile.mk "a.jpg" ".jpg" (some 1), BatchFile.mk "b.txt" ".txt" (some 2)]
      = kycFallback
    ∧ batchResultNames
        [BatchFile.mk "a.jpg" ".jpg" ((some 1 : Option ℕ)), BatchFile.mk "b.txt" ".txt" (some 2)]
      = batchResultNames [BatchFile.mk "a.jpg" ".jpg" ((some 1 : Option ℕ))] :=
  ⟨((c10_disallowed_suffix_skipped (fun a b : ℕ => ValidationResult.mk ((a : ℚ) + b) [] true)).2
      (BatchFile.mk "a.jpg" ".jpg" (some 1)) (BatchFile.mk "b.txt" ".txt" (some 2))
      (by decide)).1,
   ((c10_disallowed_suffix_skipped (fun a b : ℕ => ValidationResult.mk ((a : ℚ) + b) [] true)).2
      (BatchFile.mk "a.jpg" ".jpg" (some 1)) (BatchFile.mk "b.txt" ".txt" (some 2))
      (by decide)).2⟩
